import Mathlib

/-!
Shallow embedding of `src/core/chatbot.py` from the parenting-assistant RAG
repository.

The Python module wires a guarded retrieval-augmented chatbot chain:
`llm_guard_input` (Input Guard) → `main_chain` (retrieval, prompt rendering,
generation) → `llm_guard_output` (Output Guard), driven by
`chatbot_response` (Orchestrator).

Python values flowing through the LangChain pipeline are heterogeneous
(strings, `StringPromptValue` objects, dicts), so we model them with the
inductive `PyVal`.  A Python function that can raise (KeyError on `x[k]`,
AttributeError on a missing attribute, TypeError) is modelled as returning
`Option`: `none` means an exception propagates.

External collaborators (the llm-guard scanners, the retriever, the LLM) are
black boxes per the spec; they enter as function parameters.  `scan_prompt`
and `scan_output` of the llm-guard library return a triple
(sanitized text, per-scanner validity map, per-scanner score map); the score
map only ever appears rendered inside an f-string, so we carry its rendering
as a `String` field `scoreRepr`.
-/

/-- Model of a Python value as it flows through the chain: a `str`, a
LangChain `StringPromptValue` (carrying its `.text`), or a `dict` with
string keys (insertion-ordered association list, no duplicate keys are
ever constructed). -/
inductive PyVal where
  | pyStr : String → PyVal
  | promptValue : String → PyVal
  | pyDict : List (String × PyVal) → PyVal

/-- Python `d.get(k)` / `k in d` backing lookup on our dict model. -/
def dictGet (d : List (String × PyVal)) (k : String) : Option PyVal :=
  match d.find? (fun e => e.1 == k) with
  | some e => some e.2
  | none => none

/-- Characters stripped by Python `str.strip()` with no argument (the ASCII
whitespace set; the questions and responses in this pipeline are ASCII). -/
def isPyWhitespace (c : Char) : Bool :=
  c = ' ' || c = '\t' || c = '\n' || c = '\r' || c = '\x0b' || c = '\x0c'

/-- Python `s.strip()`. -/
def pyStrip (s : String) : String :=
  String.mk (((s.toList.dropWhile isPyWhitespace).reverse.dropWhile isPyWhitespace).reverse)

/-- View a `PyVal` as a Python `str`; `none` models the AttributeError /
TypeError raised when a string method is called on a non-string. -/
def asStr : PyVal → Option String
  | .pyStr s => some s
  | _ => none

/-- Python attribute access `v.text`: only a `StringPromptValue` has it;
on a `str` or `dict` the access raises AttributeError (`none`). -/
def getText : PyVal → Option String
  | .promptValue t => some t
  | _ => none

/-- Result triple of the llm-guard `scan_prompt` / `scan_output` calls:
sanitized text, the `results_valid` map (scanner name → validity), and the
f-string rendering of the `results_score` map. -/
structure ScanOutcome where
  sanitized : String
  valid : List (String × Bool)
  scoreRepr : String

/-- Python `any(not result for result in results_valid.values())`. -/
def anyInvalid (valid : List (String × Bool)) : Bool :=
  valid.any (fun e => !e.2)

/-- Fixed message for an empty or whitespace-only question
(`chatbot.py` line 108). -/
def invalidInputMsg : String := "Invalid input. Please enter a valid question."

/-- Fixed refusal for an empty generation (`chatbot.py` line 137). -/
def noAnswerMsg : String := "I cannot provide an answer to this question."

/-- Fixed rejection when an output scanner flags the response
(`chatbot.py` line 144). -/
def rejectedOutputMsg : String := "response rejected. The model response violates policy!"

/-- `llm_guard_input` (`chatbot.py` lines 101-123).  `scanP` stands for
`scan_prompt(input_scanners, question, fail_fast=True)`, a black-box
library call.  `none` models a raised exception (e.g. `.strip()` on a
non-string value under the "question" key, or `.get` on a non-dict). -/
def llm_guard_input (scanP : String → ScanOutcome) (qa_input : PyVal) : Option PyVal :=
  match qa_input with
  | .pyDict d =>
    match asStr ((dictGet d "question").getD (.pyStr "")) with
    | none => none
    | some q0 =>
      let question := pyStrip q0
      if question = "" then
        some (.pyDict [("error", .pyStr invalidInputMsg)])
      else
        let r := scanP question
        if anyInvalid r.valid then
          some (.pyDict [("error", .pyStr ("Input rejected: " ++ r.scoreRepr ++ ". Your question violates policy."))])
        else
          some (.pyDict [("question", .pyStr r.sanitized)])
  | _ => none

/-- `llm_guard_output` (`chatbot.py` lines 126-146).  `scanO` stands for
`scan_output(output_scanners, original_prompt, model_response)`.  The
source evaluates `llm_output.get("question", "").text` first, then
`llm_output.get("llm_response", "").strip()`; our `match` nesting keeps
that order, and `none` models the raised AttributeError. -/
def llm_guard_output (scanO : String → String → ScanOutcome) (llm_output : PyVal) : Option PyVal :=
  match llm_output with
  | .pyDict d =>
    match getText ((dictGet d "question").getD (.pyStr "")) with
    | none => none
    | some original_prompt =>
      match asStr ((dictGet d "llm_response").getD (.pyStr "")) with
      | none => none
      | some r0 =>
        let model_response := pyStrip r0
        if model_response = "" then
          some (.pyDict [("response", .pyStr noAnswerMsg)])
        else
          let r := scanO original_prompt model_response
          if anyInvalid r.valid then
            some (.pyDict [("response", .pyStr rejectedOutputMsg)])
          else
            some (.pyDict [("response", .pyStr r.sanitized)])
  | _ => none

/-- A retrieved LangChain document: only its `page_content` matters here. -/
structure Document where
  page_content : String

/-- The label `format_docs` extracts (`chatbot.py` line 183). -/
def answerBodyLabel : String := "AnswerBody:"

/-- Python `hay.find(needle)` restricted to found/not-found: index of the
leftmost occurrence of `needle`, indexing by code point as Python does. -/
def findSub (needle : List Char) : List Char → Option Nat
  | [] => if needle.isPrefixOf ([] : List Char) then some 0 else none
  | c :: t =>
    if needle.isPrefixOf (c :: t) then some 0
    else (findSub needle t).map (· + 1)

/-- Loop body of `format_docs` (`chatbot.py` lines 181-187): if the
document content contains "AnswerBody:" (Python `"AnswerBody:" in content`
and `content.find` are the one `findSub`), append the stripped text after
the first occurrence of the label to `answer_bodies`, else leave the
accumulator unchanged. -/
def collectAnswerBody (acc : List String) (doc : Document) : List String :=
  let content := doc.page_content
  match findSub answerBodyLabel.toList content.toList with
  | some i =>
    let answer_body := pyStrip (String.mk (content.toList.drop (i + answerBodyLabel.length)))
    acc ++ [answer_body]
  | none => acc

/-- `format_docs` (`chatbot.py` lines 179-188): run the accumulation loop
over the documents in order, then join the collected answer bodies with a
blank line. -/
def format_docs (docs : List Document) : String :=
  String.intercalate "\n\n" (docs.foldl collectAnswerBody ([] : List String))

/-- A single quote character, as a string (used by the Python `repr` of a
string, which wraps it in single quotes). -/
def pyQuote : String := String.mk [Char.ofNat 39]

mutual

/-- Python `repr` for our value model (no escaping: the values reaching a
`repr` in this pipeline contain neither quotes nor backslashes).  A dict
renders as `\x7b`…`\x7d` around comma-separated entries of quoted key,
colon, rendered value; a `StringPromptValue` via its pydantic repr. -/
def pyReprOfVal : PyVal → String
  | .pyStr s => pyQuote ++ s ++ pyQuote
  | .promptValue t => "StringPromptValue(text=" ++ pyQuote ++ t ++ pyQuote ++ ")"
  | .pyDict es => "\x7b" ++ pyReprEntries es ++ "\x7d"

/-- Comma-separated renderings of dict entries: quoted key, colon, repr of value. -/
def pyReprEntries : List (String × PyVal) → String
  | [] => ""
  | [(k, v)] => pyQuote ++ k ++ pyQuote ++ ": " ++ pyReprOfVal v
  | (k, v) :: e :: rest =>
    pyQuote ++ k ++ pyQuote ++ ": " ++ pyReprOfVal v ++ ", " ++ pyReprEntries (e :: rest)

end

/-- Python `str(v)` as used by `str.format` on a template slot: a `str`
inserts itself verbatim, anything else its `repr`. -/
def pyStrOf : PyVal → String
  | .pyStr s => s
  | v => pyReprOfVal v

/-- The `prompt_template` of `create_chatbot_chain` (`chatbot.py` lines
155-161) applied to the two template variables, exactly as
`str.format` renders it (note the 4-space indentation of the
triple-quoted literal). -/
def renderPrompt (context question : String) : String :=
  "You are a knowledgeable and empathetic assistant helping parents with\n    their questions.\n\n    "
    ++ context ++ "\n\n    Question: " ++ question ++ "\n    Answer:"

/-- `main_chain` of `create_chatbot_chain` (`chatbot.py` lines 191-202).
The first `RunnableParallel` computes the context branch
`(lambda x: x["question"]) | retriever | format_docs` — `x["question"]`
raises KeyError (`none`) when the key is missing, e.g. on the error dict
of the Input Guard — while `RunnablePassthrough` forwards the whole
input dict `x` into the `question` slot.  `prompt` then formats the
template with `context` and with `str(x)` for `question`, producing a
`StringPromptValue`; the second `RunnableParallel` pairs the parsed LLM
text with a passthrough of that prompt value.  `retriever` and the
LLM-plus-`StrOutputParser` composite `llm` are black-box parameters. -/
def main_chain (retriever : PyVal → List Document) (llm : String → String)
    (x : PyVal) : Option PyVal :=
  match x with
  | .pyDict d =>
    match dictGet d "question" with
    | none => none
    | some q =>
      let context := format_docs (retriever q)
      let rendered := renderPrompt context (pyStrOf x)
      some (.pyDict [("llm_response", .pyStr (llm rendered)),
                     ("question", .promptValue rendered)])
  | _ => none

/-- `guard_chain` of `create_chatbot_chain` (`chatbot.py` lines 204-206):
the sequential composition Input Guard → main chain → Output Guard, with
exceptions (`none`) propagating. -/
def guard_chain (scanP : String → ScanOutcome) (scanO : String → String → ScanOutcome)
    (retriever : PyVal → List Document) (llm : String → String)
    (input : PyVal) : Option PyVal :=
  match llm_guard_input scanP input with
  | none => none
  | some a =>
    match main_chain retriever llm a with
    | none => none
    | some b => llm_guard_output scanO b

/-- `chatbot_response` (`chatbot.py` lines 211-224): invoke the chain on
`{"question": question}`; if the result has an "error" key return that
value, otherwise return the result itself.  (`"error" in response` on a
string result would be a substring test, and `response["error"]` on a
string a TypeError; those branches are modelled faithfully though the
chain only ever yields dicts.) -/
def chatbot_response (scanP : String → ScanOutcome) (scanO : String → String → ScanOutcome)
    (retriever : PyVal → List Document) (llm : String → String)
    (question : String) : Option PyVal :=
  match guard_chain scanP scanO retriever llm (.pyDict [("question", .pyStr question)]) with
  | none => none
  | some response =>
    match response with
    | .pyDict d =>
      match dictGet d "error" with
      | some e => some e
      | none => some response
    | .pyStr s =>
      if (findSub "error".toList s.toList).isSome then none else some (.pyStr s)
    | .promptValue _ => none

/-- Whether a dict value carries the key `k` (Python `k in d`); a non-dict
carries no keys. -/
def hasKey (v : PyVal) (k : String) : Bool :=
  match v with
  | .pyDict d => (dictGet d k).isSome
  | _ => false

/-- Spec-side view: a document content contains the "AnswerBody:" label. -/
def containsAnswerBody (content : String) : Bool :=
  (findSub answerBodyLabel.toList content.toList).isSome

/-- Spec-side view: the extracted answer body of a content — the stripped
text after the first "AnswerBody:" (empty for a content without the
label, which never contributes to the context). -/
def answerBodySegment (content : String) : String :=
  match findSub answerBodyLabel.toList content.toList with
  | some i => pyStrip (String.mk (content.toList.drop (i + answerBodyLabel.length)))
  | none => ""

/-- The sanitized question the Input Guard hands to the pipeline:
`sanitized_prompt` of the scan of the stripped question. -/
def sanitizedOf (scanP : String → ScanOutcome) (q : String) : String :=
  (scanP (pyStrip q)).sanitized

/-- The prompt text rendered by the main chain for a question `q` that
passed the Input Guard: the template applied to the formatted retrieval
context and to `str` of the passthrough dict holding the sanitized
question. -/
def renderedPromptOf (scanP : String → ScanOutcome) (retriever : PyVal → List Document)
    (q : String) : String :=
  renderPrompt (format_docs (retriever (.pyStr (sanitizedOf scanP q))))
    (pyStrOf (.pyDict [("question", .pyStr (sanitizedOf scanP q))]))

/-- Instantiation of the black-box input scan: every scanner passes and the
text is returned unchanged. -/
def scanAllPass (t : String) : ScanOutcome := ⟨t, [("Scanner", true)], "ok"⟩

/-- Instantiation of the black-box output scan: every scanner passes and
the model response is returned unchanged. -/
def scanOutAllPass (_p r : String) : ScanOutcome := ⟨r, [("Scanner", true)], "ok"⟩

/-- Observing instantiation of the output scan: it passes and returns as
sanitized text its FIRST argument — the text the Output Guard scans —
so the chain result reveals what was scanned. -/
def scanOutReveal (p _r : String) : ScanOutcome := ⟨p, [("Scanner", true)], "ok"⟩

/-- Instantiation of the input scan in which a scanner rewrites the text
(as redaction does) and all scanners pass. -/
def scanRewrite (t : String) : ScanOutcome :=
  ⟨"[REDACTED] " ++ t, [("Anonymize", true)], "ok"⟩

/-- Instantiation of the input scan in which a scanner reports invalid. -/
def scanRejectAll (t : String) : ScanOutcome := ⟨t, [("Toxicity", false)], "high"⟩

/-- Instantiation of the output scan in which a scanner reports invalid. -/
def scanOutRejectAll (_p r : String) : ScanOutcome := ⟨r, [("Relevance", false)], "low"⟩

/-- A retriever returning no documents. -/
def retrNone : PyVal → List Document := fun _ => []

/-- A retriever returning one document carrying an "AnswerBody:" label. -/
def retrOneDoc : PyVal → List Document :=
  fun _ => [⟨"QuestionBody: veggies AnswerBody: Offer vegetables early and often."⟩]

/-- A generation model producing a fixed non-empty answer. -/
def llmConst : String → String := fun _ => "Take a deep breath."

/-- The Input Guard on a dict whose stripped question is non-empty and
whose scan reports all scanners valid returns the sanitized question. -/
theorem llm_guard_input_pass (scanP : String → ScanOutcome) (q : String)
    (hne : pyStrip q ≠ "") (hok : anyInvalid (scanP (pyStrip q)).valid = false) :
    llm_guard_input scanP (.pyDict [("question", .pyStr q)]) =
      some (.pyDict [("question", .pyStr (sanitizedOf scanP q))]) := by
  simp [llm_guard_input, dictGet, asStr, hne, hok, sanitizedOf]

/-- The main chain on a dict holding a question string retrieves with that
string, renders the prompt template over the formatted context and the
`str` of the whole passthrough dict, and pairs the parsed LLM text with a
passthrough of the resulting prompt value. -/
theorem main_chain_on_question (retriever : PyVal → List Document) (llm : String → String)
    (s : String) :
    main_chain retriever llm (.pyDict [("question", .pyStr s)]) =
      some (.pyDict [("llm_response", .pyStr (llm (renderPrompt (format_docs (retriever (.pyStr s))) (pyStrOf (.pyDict [("question", .pyStr s)]))))),
                     ("question", .promptValue (renderPrompt (format_docs (retriever (.pyStr s))) (pyStrOf (.pyDict [("question", .pyStr s)]))))]) := rfl

/-- The Output Guard on the shape produced by the main chain, for a
non-empty stripped response: it applies the output scan to the prompt
text and the stripped response and keeps or rejects accordingly. -/
theorem llm_guard_output_decision (scanO : String → String → ScanOutcome)
    (rendered resp : String) (hne : pyStrip resp ≠ "") :
    llm_guard_output scanO (.pyDict [("llm_response", .pyStr resp), ("question", .promptValue rendered)]) =
      some (.pyDict [("response", .pyStr
        (if anyInvalid (scanO rendered (pyStrip resp)).valid then rejectedOutputMsg
         else (scanO rendered (pyStrip resp)).sanitized))]) := by
  simp [llm_guard_output, dictGet, getText, asStr, hne]
  split <;> rfl

/-- The accumulation loop of `format_docs` appends, in order, exactly the
answer-body segments of the documents containing the label. -/
theorem foldl_collectAnswerBody (docs : List Document) (acc : List String) :
    docs.foldl collectAnswerBody acc =
      acc ++ (docs.filter (fun d => containsAnswerBody d.page_content)).map
        (fun d => answerBodySegment d.page_content) := by
  induction docs generalizing acc with
  | nil => simp
  | cons d ds ih =>
    rw [List.foldl_cons, ih]
    cases h : findSub answerBodyLabel.toList d.page_content.toList with
    | none =>
      simp only [String.toList] at h
      simp [collectAnswerBody, containsAnswerBody, String.toList, h, List.filter_cons]
    | some i =>
      simp only [String.toList] at h
      simp [collectAnswerBody, containsAnswerBody, answerBodySegment, String.toList, h,
        List.filter_cons]

/-- Claim C1: the claim states the orchestrator always returns a plain
string — the error string when the chain result carries an `error` key,
else the `response` string — never a dict and never a raised exception.
The code violates this at both ends: an Input Guard rejection (e.g. the
empty question) yields `\x7berror: …\x7d`, on which the context branch of
the main chain evaluates `x["question"]` and raises KeyError, so
`chatbot_response` raises (first conjunct, for every scan, retriever and
LLM instantiation); and on an accepted answer it returns the whole
`\x7bresponse: …\x7d` dict, not the response string (second conjunct). -/
theorem chatbot_response_raises_on_rejection_and_returns_dict :
    (∀ (sp : String → ScanOutcome) (so : String → String → ScanOutcome)
       (r : PyVal → List Document) (l : String → String),
       chatbot_response sp so r l "" = none) ∧
    chatbot_response scanAllPass scanOutAllPass retrNone llmConst "hi" =
      some (.pyDict [("response", .pyStr "Take a deep breath.")]) :=
  ⟨fun _ _ _ _ => rfl, rfl⟩

/-- Claim C2 (counterexample): the claim states the Output Guard scans the
pair (original question text, generated text).  With an output scan that
returns its first argument as the sanitized text, the chain on question
"hi" surfaces what was scanned: the fully rendered prompt — not "hi". -/
theorem output_guard_scans_full_prompt_not_question :
    chatbot_response scanAllPass scanOutReveal retrNone llmConst "hi" =
      some (.pyDict [("response", .pyStr (renderPrompt (format_docs (retrNone (.pyStr "hi")))
        (pyStrOf (.pyDict [("question", .pyStr "hi")]))))]) ∧
    renderPrompt (format_docs (retrNone (.pyStr "hi")))
        (pyStrOf (.pyDict [("question", .pyStr "hi")])) ≠ "hi" := by
  exact ⟨rfl, by decide⟩

/-- Claim C2 (amended): for every question that passes the Input Guard and
every generation non-empty after trimming, the Output Guard runs its
scanners against the pair (rendered prompt text, generated text): the
first element is the `.text` of the prompt value passed through the
second parallel step — the full template rendering, containing the
context and the `str` of the question dict — not the original user
question. -/
theorem output_guard_scans_rendered_prompt (scanP : String → ScanOutcome)
    (scanO : String → String → ScanOutcome)
    (retriever : PyVal → List Document) (llm : String → String) (q : String)
    (hne : pyStrip q ≠ "")
    (hok : anyInvalid (scanP (pyStrip q)).valid = false)
    (hresp : pyStrip (llm (renderedPromptOf scanP retriever q)) ≠ "") :
    guard_chain scanP scanO retriever llm (.pyDict [("question", .pyStr q)]) =
      some (.pyDict [("response", .pyStr
        (if anyInvalid (scanO (renderedPromptOf scanP retriever q)
              (pyStrip (llm (renderedPromptOf scanP retriever q)))).valid
         then rejectedOutputMsg
         else (scanO (renderedPromptOf scanP retriever q)
              (pyStrip (llm (renderedPromptOf scanP retriever q)))).sanitized))]) := by
  rw [guard_chain, llm_guard_input_pass scanP q hne hok]
  dsimp only
  rw [main_chain_on_question]
  dsimp only
  show llm_guard_output scanO
      (.pyDict [("llm_response", .pyStr (llm (renderedPromptOf scanP retriever q))),
                ("question", .promptValue (renderedPromptOf scanP retriever q))]) = _
  rw [llm_guard_output_decision scanO _ _ hresp]

/-- Witness for C2 (amended) at question "hi" with all-pass scanners, the
empty retriever and a fixed LLM answer. -/
theorem output_guard_scans_rendered_prompt_witness :
    pyStrip "hi" ≠ "" ∧
    anyInvalid (scanAllPass (pyStrip "hi")).valid = false ∧
    pyStrip (llmConst (renderedPromptOf scanAllPass retrNone "hi")) ≠ "" ∧
    guard_chain scanAllPass scanOutAllPass retrNone llmConst (.pyDict [("question", .pyStr "hi")]) =
      some (.pyDict [("response", .pyStr
        (if anyInvalid (scanOutAllPass (renderedPromptOf scanAllPass retrNone "hi")
              (pyStrip (llmConst (renderedPromptOf scanAllPass retrNone "hi")))).valid
         then rejectedOutputMsg
         else (scanOutAllPass (renderedPromptOf scanAllPass retrNone "hi")
              (pyStrip (llmConst (renderedPromptOf scanAllPass retrNone "hi")))).sanitized))]) :=
  ⟨by decide, rfl, by decide,
    output_guard_scans_rendered_prompt scanAllPass scanOutAllPass retrNone llmConst "hi"
      (by decide) rfl (by decide)⟩

/-- Claim C3: a dict whose question string strips to empty makes the Input
Guard return the fixed invalid-input error, for every instantiation of
the scan (so no scanner result can influence it). -/
theorem input_guard_blank_question_fixed_error (scanP : String → ScanOutcome)
    (d : List (String × PyVal)) (q : String)
    (hq : dictGet d "question" = some (.pyStr q)) (he : pyStrip q = "") :
    llm_guard_input scanP (.pyDict d) =
      some (.pyDict [("error", .pyStr invalidInputMsg)]) := by
  simp [llm_guard_input, hq, asStr, he]

/-- Witness for C3 at the whitespace-only question. -/
theorem input_guard_blank_question_fixed_error_witness :
    dictGet [("question", PyVal.pyStr " \t ")] "question" = some (.pyStr " \t ") ∧
    pyStrip " \t " = "" ∧
    llm_guard_input scanAllPass (.pyDict [("question", .pyStr " \t ")]) =
      some (.pyDict [("error", .pyStr invalidInputMsg)]) :=
  ⟨rfl, rfl, input_guard_blank_question_fixed_error scanAllPass _ _ rfl rfl⟩

/-- Claim C4: when every input scanner passes, the Input Guard returns the
sanitized (possibly rewritten) question, and the main chain applied to
that result retrieves with the sanitized text and renders the prompt from
values derived from the sanitized text only — the original raw text does
not flow downstream. -/
theorem sanitized_question_flows_to_pipeline (scanP : String → ScanOutcome)
    (retriever : PyVal → List Document) (llm : String → String) (q : String)
    (hne : pyStrip q ≠ "") (hok : anyInvalid (scanP (pyStrip q)).valid = false) :
    llm_guard_input scanP (.pyDict [("question", .pyStr q)]) =
      some (.pyDict [("question", .pyStr (sanitizedOf scanP q))]) ∧
    main_chain retriever llm (.pyDict [("question", .pyStr (sanitizedOf scanP q))]) =
      some (.pyDict [("llm_response", .pyStr (llm (renderedPromptOf scanP retriever q))),
                     ("question", .promptValue (renderedPromptOf scanP retriever q))]) :=
  ⟨llm_guard_input_pass scanP q hne hok,
   main_chain_on_question retriever llm (sanitizedOf scanP q)⟩

/-- Witness for C4 with a rewriting scanner, a one-document retriever and
a fixed LLM answer: the redacted text, not the raw one, is what the
pipeline consumes. -/
theorem sanitized_question_flows_to_pipeline_witness :
    pyStrip " my child cries " ≠ "" ∧
    anyInvalid (scanRewrite (pyStrip " my child cries ")).valid = false ∧
    (llm_guard_input scanRewrite (.pyDict [("question", .pyStr " my child cries ")]) =
        some (.pyDict [("question", .pyStr (sanitizedOf scanRewrite " my child cries "))]) ∧
      main_chain retrOneDoc llmConst
          (.pyDict [("question", .pyStr (sanitizedOf scanRewrite " my child cries "))]) =
        some (.pyDict [("llm_response",
                         .pyStr (llmConst (renderedPromptOf scanRewrite retrOneDoc " my child cries "))),
                       ("question",
                         .promptValue (renderedPromptOf scanRewrite retrOneDoc " my child cries "))])) :=
  ⟨by decide, rfl,
    sanitized_question_flows_to_pipeline scanRewrite retrOneDoc llmConst " my child cries "
      (by decide) rfl⟩

/-- Claim C5: a non-empty question on which some scanner reports invalid
makes the Input Guard return an error object embedding the rendering of
the per-scanner score map; the returned dict carries only the `error`
key — the sanitized text is discarded and there is no question field. -/
theorem input_guard_scanner_rejection_error (scanP : String → ScanOutcome)
    (d : List (String × PyVal)) (q : String)
    (hq : dictGet d "question" = some (.pyStr q))
    (hne : pyStrip q ≠ "")
    (hinv : anyInvalid (scanP (pyStrip q)).valid = true) :
    llm_guard_input scanP (.pyDict d) =
      some (.pyDict [("error", .pyStr ("Input rejected: " ++ (scanP (pyStrip q)).scoreRepr ++ ". Your question violates policy."))]) ∧
    hasKey (.pyDict [("error", .pyStr ("Input rejected: " ++ (scanP (pyStrip q)).scoreRepr ++ ". Your question violates policy."))]) "question" = false := by
  refine ⟨?_, rfl⟩
  simp [llm_guard_input, hq, asStr, hne, hinv]

/-- Witness for C5 with a rejecting scanner. -/
theorem input_guard_scanner_rejection_error_witness :
    dictGet [("question", PyVal.pyStr "violent content")] "question" =
      some (.pyStr "violent content") ∧
    pyStrip "violent content" ≠ "" ∧
    anyInvalid (scanRejectAll (pyStrip "violent content")).valid = true ∧
    (llm_guard_input scanRejectAll (.pyDict [("question", .pyStr "violent content")]) =
        some (.pyDict [("error", .pyStr ("Input rejected: " ++ (scanRejectAll (pyStrip "violent content")).scoreRepr ++ ". Your question violates policy."))]) ∧
      hasKey (.pyDict [("error", .pyStr ("Input rejected: " ++ (scanRejectAll (pyStrip "violent content")).scoreRepr ++ ". Your question violates policy."))]) "question" = false) :=
  ⟨rfl, by decide, rfl,
    input_guard_scanner_rejection_error scanRejectAll _ _ rfl (by decide) rfl⟩

/-- Claim C6: a generated text empty after trimming makes the Output Guard
return the fixed refusal, for every instantiation of the output scan (so
no output scanner result can influence it). -/
theorem output_guard_blank_response_refusal (scanO : String → String → ScanOutcome)
    (d : List (String × PyVal)) (t r : String)
    (hq : dictGet d "question" = some (.promptValue t))
    (hr : dictGet d "llm_response" = some (.pyStr r))
    (he : pyStrip r = "") :
    llm_guard_output scanO (.pyDict d) = some (.pyDict [("response", .pyStr noAnswerMsg)]) := by
  simp [llm_guard_output, hq, hr, getText, asStr, he]

/-- Witness for C6 at the whitespace-only generation. -/
theorem output_guard_blank_response_refusal_witness :
    dictGet [("llm_response", PyVal.pyStr "  "), ("question", PyVal.promptValue "p")] "question" =
      some (.promptValue "p") ∧
    dictGet [("llm_response", PyVal.pyStr "  "), ("question", PyVal.promptValue "p")] "llm_response" =
      some (.pyStr "  ") ∧
    pyStrip "  " = "" ∧
    llm_guard_output scanOutAllPass
        (.pyDict [("llm_response", .pyStr "  "), ("question", .promptValue "p")]) =
      some (.pyDict [("response", .pyStr noAnswerMsg)]) :=
  ⟨rfl, rfl, rfl,
    output_guard_blank_response_refusal scanOutAllPass _ _ _ rfl rfl rfl⟩

/-- Claim C7: on a generated text non-empty after trimming, the Output
Guard returns the fixed rejection message when some output scanner
reports invalid (discarding the generated text), and the sanitized
generated text when all report valid. -/
theorem output_guard_nonempty_response_decision (scanO : String → String → ScanOutcome)
    (d : List (String × PyVal)) (t r : String)
    (hq : dictGet d "question" = some (.promptValue t))
    (hr : dictGet d "llm_response" = some (.pyStr r))
    (hne : pyStrip r ≠ "") :
    llm_guard_output scanO (.pyDict d) =
      some (.pyDict [("response", .pyStr
        (if anyInvalid (scanO t (pyStrip r)).valid then rejectedOutputMsg
         else (scanO t (pyStrip r)).sanitized))]) := by
  simp [llm_guard_output, hq, hr, getText, asStr, hne]
  split <;> rfl

/-- Witness for C7 with a rejecting output scanner. -/
theorem output_guard_nonempty_response_decision_witness :
    dictGet [("llm_response", PyVal.pyStr " ok "), ("question", PyVal.promptValue "p")] "question" =
      some (.promptValue "p") ∧
    dictGet [("llm_response", PyVal.pyStr " ok "), ("question", PyVal.promptValue "p")] "llm_response" =
      some (.pyStr " ok ") ∧
    pyStrip " ok " ≠ "" ∧
    llm_guard_output scanOutRejectAll
        (.pyDict [("llm_response", .pyStr " ok "), ("question", .promptValue "p")]) =
      some (.pyDict [("response", .pyStr
        (if anyInvalid (scanOutRejectAll "p" (pyStrip " ok ")).valid then rejectedOutputMsg
         else (scanOutRejectAll "p" (pyStrip " ok ")).sanitized))]) :=
  ⟨rfl, rfl, by decide,
    output_guard_nonempty_response_decision scanOutRejectAll _ _ _ rfl rfl (by decide)⟩

/-- Claim C8: for every sequence of retrieved documents, the context is the
double-newline-separated concatenation of the answer-body segments of
exactly those documents whose content contains the "AnswerBody:" label,
in retriever-returned order; a document without the label contributes
nothing. -/
theorem context_is_joined_answer_bodies (docs : List Document) :
    format_docs docs =
      String.intercalate "\n\n"
        ((docs.filter (fun d => containsAnswerBody d.page_content)).map
          (fun d => answerBodySegment d.page_content)) := by
  rw [format_docs, foldl_collectAnswerBody]
  simp

/-- Claim C9: every value the Input Guard returns populates exactly one of
the `error` / `question` keys and never `response`, and every value the
Output Guard returns populates `response` and never `error`: at each
point where a guard fires, exactly one of the `error` / `response`
branches is populated. -/
theorem guard_results_populate_one_branch (scanP : String → ScanOutcome)
    (scanO : String → String → ScanOutcome) (vin vout rin rout : PyVal)
    (hin : llm_guard_input scanP vin = some rin)
    (hout : llm_guard_output scanO vout = some rout) :
    ((hasKey rin "error" = true ∧ hasKey rin "response" = false ∧ hasKey rin "question" = false)
      ∨ (hasKey rin "question" = true ∧ hasKey rin "error" = false ∧ hasKey rin "response" = false))
    ∧ (hasKey rout "response" = true ∧ hasKey rout "error" = false) := by
  constructor
  · cases vin with
    | pyStr s => simp [llm_guard_input] at hin
    | promptValue t => simp [llm_guard_input] at hin
    | pyDict d =>
      rw [llm_guard_input] at hin
      split at hin
      · cases hin
      · simp only [] at hin
        split at hin
        · cases hin; left; exact ⟨rfl, rfl, rfl⟩
        · split at hin
          · cases hin; left; exact ⟨rfl, rfl, rfl⟩
          · cases hin; right; exact ⟨rfl, rfl, rfl⟩
  · cases vout with
    | pyStr s => simp [llm_guard_output] at hout
    | promptValue t => simp [llm_guard_output] at hout
    | pyDict d =>
      rw [llm_guard_output] at hout
      split at hout
      · cases hout
      · split at hout
        · cases hout
        · simp only [] at hout
          split at hout
          · cases hout; exact ⟨rfl, rfl⟩
          · split at hout
            · cases hout; exact ⟨rfl, rfl⟩
            · cases hout; exact ⟨rfl, rfl⟩

/-- Witness for C9 at a passing question and a passing generation. -/
theorem guard_results_populate_one_branch_witness :
    llm_guard_input scanAllPass (.pyDict [("question", .pyStr "q")]) =
      some (.pyDict [("question", .pyStr "q")]) ∧
    llm_guard_output scanOutAllPass
        (.pyDict [("llm_response", .pyStr "a"), ("question", .promptValue "p")]) =
      some (.pyDict [("response", .pyStr "a")]) ∧
    (((hasKey (PyVal.pyDict [("question", PyVal.pyStr "q")]) "error" = true ∧
        hasKey (PyVal.pyDict [("question", PyVal.pyStr "q")]) "response" = false ∧
        hasKey (PyVal.pyDict [("question", PyVal.pyStr "q")]) "question" = false)
      ∨ (hasKey (PyVal.pyDict [("question", PyVal.pyStr "q")]) "question" = true ∧
         hasKey (PyVal.pyDict [("question", PyVal.pyStr "q")]) "error" = false ∧
         hasKey (PyVal.pyDict [("question", PyVal.pyStr "q")]) "response" = false))
    ∧ (hasKey (PyVal.pyDict [("response", PyVal.pyStr "a")]) "response" = true ∧
       hasKey (PyVal.pyDict [("response", PyVal.pyStr "a")]) "error" = false)) :=
  ⟨rfl, rfl,
    guard_results_populate_one_branch scanAllPass scanOutAllPass
      (.pyDict [("question", .pyStr "q")])
      (.pyDict [("llm_response", .pyStr "a"), ("question", .promptValue "p")])
      (.pyDict [("question", .pyStr "q")])
      (.pyDict [("response", .pyStr "a")]) rfl rfl⟩

/-- Claim C10: on any dict without a "question" key the lookup defaults to
the empty string, whose `.text` access raises: the Output Guard raises
(returns no value) instead of producing a response or error dict. -/
theorem output_guard_missing_question_raises (scanO : String → String → ScanOutcome)
    (d : List (String × PyVal)) (h : dictGet d "question" = none) :
    llm_guard_output scanO (.pyDict d) = none := by
  simp [llm_guard_output, h, getText]

/-- Witness for C10 at a dict carrying only the llm_response key. -/
theorem output_guard_missing_question_raises_witness :
    dictGet [("llm_response", PyVal.pyStr "hello")] "question" = none ∧
    llm_guard_output scanOutAllPass (.pyDict [("llm_response", .pyStr "hello")]) = none :=
  ⟨rfl, output_guard_missing_question_raises scanOutAllPass _ rfl⟩
